import Mathlib

/-!
A shallow embedding of the aggregation and comparison logic of
`traffic_stop_analysis.py` (repository `Police-Analysis-Python`), together with
theorems settling the specification claims about it.

Conventions of the embedding:
* a pandas dataframe of traffic stops is a `List StopRecord`;
* Python's true division `a / b` on counts is `pydiv`, which yields `none`
  exactly when the denominator is zero, modelling an uncaught
  `ZeroDivisionError`; a function whose body can raise therefore returns an
  `Option` (or `Except`) value, with `none` / `.error` meaning the exception;
* rate values are exact rationals (`ℚ`);
* the deliberate `None` produced by the suppression policy inside
  `compute_search_stats` is the inner `Option ℚ` of a rate field, distinct
  from the outer `Option` that models exceptions.
-/

/-- One traffic-stop record, restricted to the fields the analysis functions
read (`county_fips`, `driver_race`, `stop_outcome`, `search_conducted`,
`contraband_found`). -/
structure StopRecord where
  county_fips : Nat
  driver_race : String
  stop_outcome : String
  search_conducted : Bool
  contraband_found : Bool
deriving DecidableEq

/-- Python `a / b` on two counts: `none` models the `ZeroDivisionError` raised
when `b = 0`; otherwise the exact rational quotient. -/
def pydiv (a b : Nat) : Option ℚ :=
  if b = 0 then none else some ((a : ℚ) / (b : ℚ))

/-- The series returned by `compute_outcome_stats`. -/
structure OutcomeStats where
  n_total : Nat
  n_warnings : Nat
  n_citations : Nat
  n_arrests : Nat
  citations_per_warning : ℚ
  arrest_rate : ℚ
deriving DecidableEq

/-- Embedding of `compute_outcome_stats` (source lines 261-277): counts the
rows whose `stop_outcome` equals each of the three outcome strings exactly,
then divides.  The two divisions are unguarded in the source, so the result is
`none` (an uncaught `ZeroDivisionError`) when a denominator is zero. -/
def compute_outcome_stats (df : List StopRecord) : Option OutcomeStats := do
  let n_total := df.length
  let n_warnings := (df.filter (fun r => r.stop_outcome == "Written Warning")).length
  let n_citations := (df.filter (fun r => r.stop_outcome == "Citation")).length
  let n_arrests := (df.filter (fun r => r.stop_outcome == "Arrest for Violation")).length
  let citations_per_warning ← pydiv n_citations n_warnings
  let arrest_rate ← pydiv n_arrests n_total
  pure ⟨n_total, n_warnings, n_citations, n_arrests, citations_per_warning, arrest_rate⟩

/-- The value `compute_outcome_stats` returns on the inputs where it does not
raise (helper for stating witnesses without kernel rational arithmetic). -/
def outcome_stats_of (df : List StopRecord) : OutcomeStats where
  n_total := df.length
  n_warnings := (df.filter (fun r => r.stop_outcome == "Written Warning")).length
  n_citations := (df.filter (fun r => r.stop_outcome == "Citation")).length
  n_arrests := (df.filter (fun r => r.stop_outcome == "Arrest for Violation")).length
  citations_per_warning :=
    ((df.filter (fun r => r.stop_outcome == "Citation")).length : ℚ) /
      ((df.filter (fun r => r.stop_outcome == "Written Warning")).length : ℚ)
  arrest_rate := ((df.filter (fun r => r.stop_outcome == "Arrest for Violation")).length : ℚ) /
    (df.length : ℚ)

/-- The series returned by `compute_search_stats`; a rate is `none` when the
source suppressed it (`search_rate`/`hit_rate = None`). -/
structure SearchStats where
  n_stops : Nat
  n_searches : Nat
  n_hits : Nat
  search_rate : Option ℚ
  hit_rate : Option ℚ
deriving DecidableEq

/-- Embedding of `compute_search_stats` (source lines 442-468):
`n_stops = len(df)`, `n_searches = sum(search_conducted)`,
`n_hits = sum(contraband_found)`; `search_rate` is `None` when `n_stops < 50`
and `n_searches / n_stops` otherwise, `hit_rate` is `None` when
`n_searches < 5` and `n_hits / n_searches` otherwise.  The outer `Option`
models a potential `ZeroDivisionError` in the unsuppressed branches. -/
def compute_search_stats (df : List StopRecord) : Option SearchStats := do
  let n_stops := df.length
  let n_searches := (df.filter (fun r => r.search_conducted)).length
  let n_hits := (df.filter (fun r => r.contraband_found)).length
  let search_rate ←
    if n_stops < 50 then some none
    else (pydiv n_searches n_stops).map some
  let hit_rate ←
    if n_searches < 5 then some none
    else (pydiv n_hits n_searches).map some
  pure ⟨n_stops, n_searches, n_hits, search_rate, hit_rate⟩

/-- The value `compute_search_stats` returns (helper for stating witnesses
without kernel rational arithmetic). -/
def search_stats_of (df : List StopRecord) : SearchStats where
  n_stops := df.length
  n_searches := (df.filter (fun r => r.search_conducted)).length
  n_hits := (df.filter (fun r => r.contraband_found)).length
  search_rate :=
    if df.length < 50 then none
    else some (((df.filter (fun r => r.search_conducted)).length : ℚ) / (df.length : ℚ))
  hit_rate :=
    if (df.filter (fun r => r.search_conducted)).length < 5 then none
    else some (((df.filter (fun r => r.contraband_found)).length : ℚ) /
      ((df.filter (fun r => r.search_conducted)).length : ℚ))

/-- The distinct key values a `df.groupby(key)` call discovers in the data. -/
def group_keys (key : StopRecord → String) (df : List StopRecord) : List String :=
  (df.map key).dedup

/-- The partition of `df` that `groupby` assigns to key value `v`. -/
def group_rows (key : StopRecord → String) (df : List StopRecord) (v : String) :
    List StopRecord :=
  df.filter (fun r => key r == v)

/-- The sizes of the partitions produced by `groupby`, in discovery order. -/
def group_sizes (key : StopRecord → String) (df : List StopRecord) : List Nat :=
  (group_keys key df).map (fun v => (group_rows key df v).length)

/-- The `driver_race` partition key used by the group-by driver
(`df_vt.groupby('driver_race')`, source line 514). -/
def race_key : StopRecord → String :=
  fun r => r.driver_race

/-- Embedding of `df.groupby(key).apply(compute_search_stats)`: one stats row
per discovered key value, computed on that value's partition. -/
def groupby_search_stats (key : StopRecord → String) (df : List StopRecord) :
    List (String × Option SearchStats) :=
  (group_keys key df).map (fun v => (v, compute_search_stats (group_rows key df v)))

/-- Row filter applied by `DataFrame.dropna()` to a search-stats table
(source line 540): a row survives only when neither statistic is missing. -/
def row_complete (s : SearchStats) : Bool :=
  s.search_rate.isSome && s.hit_rate.isSome

/-- `dropna()` on a per-county search-stats table. -/
def dropna_rows (t : List (Nat × SearchStats)) : List (Nat × SearchStats) :=
  t.filter (fun p => row_complete p.2)

/-- Embedding of the data alignment inside `generate_comparison_scatter`
(source lines 538-543): after `dropna`, the `pivot` on `county_fips` and the
scatter of the baseline (`White`) column against the comparison column plot
one point per county that is present on both sides, carrying the chosen
field's value for each side.  Counties absent on either side give a `NaN`
cell in the pivot and are not drawn. -/
def comparison_points (field : SearchStats → Option ℚ)
    (base comp : List (Nat × SearchStats)) : List (Nat × ℚ × ℚ) :=
  (dropna_rows base).filterMap (fun p =>
    match List.lookup p.1 (dropna_rows comp) with
    | none => none
    | some sc =>
      match field p.2, field sc with
      | some vb, some vc => some (p.1, vb, vc)
      | _, _ => none)

/-- The sub-keys (counties) appearing in the aligned comparison output. -/
def comparison_counties (field : SearchStats → Option ℚ)
    (base comp : List (Nat × SearchStats)) : List Nat :=
  (comparison_points field base comp).map (fun q => q.1)

/-- Embedding of `analyze_state_data` (source lines 651-664): read one
state's file (the loader models `pd.read_csv`, whose failure on a malformed
file is an exception, `.error`), drop the `Other` race rows, and return the
search stats grouped by race.  An exception raised by the loader propagates
uncaught. -/
def analyze_state_data (load : String → Except String (List StopRecord))
    (state : String) : Except String (List (String × Option SearchStats)) := do
  let df ← load state
  let kept := df.filter (fun r => !(r.driver_race == "Other"))
  pure (groupby_search_stats race_key kept)

/-- Embedding of the top-level multi-jurisdiction run: the script calls
`analyze_state_data` once per state in straight-line sequence, so an uncaught
exception in one call aborts the remaining calls. -/
def run_all_states (load : String → Except String (List StopRecord)) :
    List String → Except String (List (List (String × Option SearchStats)))
  | [] => Except.ok []
  | s :: rest =>
    match analyze_state_data load s with
    | Except.error e => Except.error e
    | Except.ok t =>
      match run_all_states load rest with
      | Except.error e => Except.error e
      | Except.ok ts => Except.ok (t :: ts)

/-! Concrete sample data used by witnesses and counterexamples. -/

/-- A stop with no search and a written warning. -/
def rQuiet : StopRecord :=
  ⟨7, "White", "Written Warning", false, false⟩

/-- A searched stop where contraband was found, ending in a citation. -/
def rFound : StopRecord :=
  ⟨7, "White", "Citation", true, true⟩

/-- A searched stop with no contraband, ending in a citation. -/
def rClear : StopRecord :=
  ⟨7, "Black", "Citation", true, false⟩

/-- A stop ending in an arrest. -/
def rArrest : StopRecord :=
  ⟨3, "Hispanic", "Arrest for Violation", false, false⟩

/-- A stop with an outcome outside the three counted categories. -/
def rOtherOutcome : StopRecord :=
  ⟨3, "Asian", "Verbal Warning", false, false⟩

/-- 49 stops: one below the search-rate suppression threshold. -/
def df49 : List StopRecord := List.replicate 49 rQuiet

/-- 50 stops: exactly at the search-rate suppression threshold. -/
def df50 : List StopRecord := List.replicate 50 rQuiet

/-- 50 stops with 4 searches: one below the hit-rate suppression threshold. -/
def dfHit4 : List StopRecord := List.replicate 46 rQuiet ++ List.replicate 4 rClear

/-- 50 stops with 5 searches: exactly at the hit-rate suppression threshold. -/
def dfHit5 : List StopRecord := List.replicate 45 rQuiet ++ List.replicate 5 rClear

/-- 3 stops, 2 searches, 1 hit; satisfies the contraband invariant. -/
def dfInv : List StopRecord := [rQuiet, rFound, rClear]

/-- 4 stops: one warning, one citation, one arrest, one other outcome. -/
def dfOut : List StopRecord := [rQuiet, rFound, rArrest, rOtherOutcome]

/-- A fully populated search-stats row (60 stops, 6 searches, 3 hits). -/
def sAll : SearchStats := ⟨60, 6, 3, some (6 / 60), some (3 / 6)⟩

/-- A search-stats row whose search rate is reported but whose hit rate is
suppressed (50 stops, none searched): exactly `compute_search_stats` on 50
unsearched stops. -/
def sRateOnly : SearchStats := ⟨50, 0, 0, some 0, none⟩

/-- Baseline result table with counties 1, 2, 3. -/
def tblBase : List (Nat × SearchStats) := [(1, sAll), (2, sAll), (3, sAll)]

/-- Comparison result table with counties 2, 3, 4. -/
def tblComp : List (Nat × SearchStats) := [(2, sAll), (3, sAll), (4, sAll)]

/-- A loader that fails on the WI file and parses every other state's file as
an empty dataset. -/
def failing_load : String → Except String (List StopRecord) :=
  fun s => if s == "WI" then Except.error ("malformed file") else Except.ok []

/-! Helper lemmas shared by the claim theorems. -/

/-- `compute_search_stats` always succeeds and returns `search_stats_of`. -/
lemma compute_search_stats_eq (df : List StopRecord) :
    compute_search_stats df = some (search_stats_of df) := by
  unfold compute_search_stats search_stats_of pydiv
  by_cases h1 : df.length < 50
  · by_cases h2 : (df.filter (fun r => r.search_conducted)).length < 5
    · simp [h1, h2]
    · have h2' : (df.filter (fun r => r.search_conducted)).length ≠ 0 := by omega
      simp [h1, h2, h2']
  · have h1' : df.length ≠ 0 := by omega
    by_cases h2 : (df.filter (fun r => r.search_conducted)).length < 5
    · simp [h1, h1', h2]
    · have h2' : (df.filter (fun r => r.search_conducted)).length ≠ 0 := by omega
      simp [h1, h1', h2, h2']

/-- `compute_outcome_stats` raises (returns `none`) exactly when the warning
count is zero; a zero total forces a zero warning count, so the first division
already covers the empty-input case. -/
lemma compute_outcome_stats_none_iff (df : List StopRecord) :
    compute_outcome_stats df = none ↔
      (df.filter (fun r => r.stop_outcome == "Written Warning")).length = 0 := by
  unfold compute_outcome_stats pydiv
  by_cases hw : (df.filter (fun r => r.stop_outcome == "Written Warning")).length = 0
  · simp [hw]
  · have ht : df.length ≠ 0 := by
      have := List.length_filter_le (fun r => r.stop_outcome == "Written Warning") df
      omega
    simp [hw, ht]

/-- On inputs with at least one warning, `compute_outcome_stats` returns
`outcome_stats_of`. -/
lemma compute_outcome_stats_some (df : List StopRecord)
    (hw : (df.filter (fun r => r.stop_outcome == "Written Warning")).length ≠ 0) :
    compute_outcome_stats df = some (outcome_stats_of df) := by
  have ht : df.length ≠ 0 := by
    have := List.length_filter_le (fun r => r.stop_outcome == "Written Warning") df
    omega
  unfold compute_outcome_stats outcome_stats_of pydiv
  simp [hw, ht]

/-- Filtering by a pointwise-weaker predicate keeps at most as many rows. -/
lemma length_filter_mono {p q : StopRecord → Bool} (l : List StopRecord)
    (h : ∀ a ∈ l, p a = true → q a = true) :
    (l.filter p).length ≤ (l.filter q).length := by
  rw [← List.countP_eq_length_filter, ← List.countP_eq_length_filter]
  exact List.countP_mono_left h

/-- A successful `List.lookup` returns an entry of the table. -/
lemma lookup_mem {t : List (Nat × SearchStats)} {c : Nat} {s : SearchStats}
    (h : List.lookup c t = some s) : (c, s) ∈ t := by
  induction t with
  | nil => simp [List.lookup] at h
  | cons p rest ih =>
    obtain ⟨k, v⟩ := p
    rw [List.lookup] at h
    cases hck : (c == k) with
    | true =>
      rw [hck] at h
      have hceq : c = k := by simpa using hck
      obtain rfl := hceq
      obtain rfl : v = s := by simpa using h
      exact List.mem_cons_self _ _
    | false =>
      rw [hck] at h
      exact List.mem_cons_of_mem _ (ih h)

/-- A key present in the table is found by `List.lookup`, and the found entry
is itself a table entry. -/
lemma lookup_some_of_mem {t : List (Nat × SearchStats)} {c : Nat} {s : SearchStats}
    (h : (c, s) ∈ t) : ∃ u, List.lookup c t = some u ∧ (c, u) ∈ t := by
  induction t with
  | nil => simp at h
  | cons p rest ih =>
    obtain ⟨k, v⟩ := p
    cases hck : (c == k) with
    | true =>
      refine ⟨v, ?_, ?_⟩
      · rw [List.lookup, hck]
      · have hceq : c = k := by simpa using hck
        obtain rfl := hceq
        exact List.mem_cons_self _ _
    | false =>
      rcases List.mem_cons.mp h with hhead | htail
      · have hceq : c = k := by
          have := congrArg Prod.fst hhead
          simpa using this
        rw [hceq] at hck
        simp at hck
      · obtain ⟨u, hu, hmem⟩ := ih htail
        refine ⟨u, ?_, List.mem_cons_of_mem _ hmem⟩
        rw [List.lookup, hck]
        exact hu

/-- The three outcome categories are mutually exclusive, so their counts sum
to at most the sequence length. -/
lemma outcome_filter_sum_le (df : List StopRecord) :
    (df.filter (fun r => r.stop_outcome == "Written Warning")).length +
      (df.filter (fun r => r.stop_outcome == "Citation")).length +
      (df.filter (fun r => r.stop_outcome == "Arrest for Violation")).length ≤ df.length := by
  induction df with
  | nil => simp
  | cons r rest ih =>
    by_cases hw : r.stop_outcome = "Written Warning" <;>
      by_cases hc : r.stop_outcome = "Citation" <;>
        by_cases ha : r.stop_outcome = "Arrest for Violation" <;>
          simp [List.filter_cons, hw, hc, ha] <;> omega

/-! Claim theorems. -/

/-- Claim C1: for every input sequence, `compute_search_stats` reports
`search_rate` as unknown (`none`) exactly when `n_stops < 50` and otherwise as
`n_searches / n_stops`, and reports `hit_rate` as unknown exactly when
`n_searches < 5` and otherwise as `n_hits / n_searches`; the boundary inputs
(49 vs 50 stops, 4 vs 5 searches) therefore fall on the suppressed and
computed sides respectively. -/
theorem search_rate_suppression_boundaries (df : List StopRecord) (s : SearchStats)
    (h : compute_search_stats df = some s) :
    (s.search_rate = none ↔ df.length < 50) ∧
    (50 ≤ df.length →
      s.search_rate =
        some (((df.filter (fun r => r.search_conducted)).length : ℚ) / (df.length : ℚ))) ∧
    (s.hit_rate = none ↔ (df.filter (fun r => r.search_conducted)).length < 5) ∧
    (5 ≤ (df.filter (fun r => r.search_conducted)).length →
      s.hit_rate = some (((df.filter (fun r => r.contraband_found)).length : ℚ) /
        ((df.filter (fun r => r.search_conducted)).length : ℚ))) := by
  rw [compute_search_stats_eq df] at h
  obtain rfl : search_stats_of df = s := by simpa using h
  refine ⟨?_, ?_, ?_, ?_⟩
  · by_cases h1 : df.length < 50 <;> simp [search_stats_of, h1]
  · intro h1
    have h1' : ¬ df.length < 50 := by omega
    simp [search_stats_of, h1']
  · by_cases h2 : (df.filter (fun r => r.search_conducted)).length < 5 <;>
      simp [search_stats_of, h2]
  · intro h2
    have h2' : ¬ (df.filter (fun r => r.search_conducted)).length < 5 := by omega
    simp [search_stats_of, h2']

/-- Witness for claim C1 at the boundary inputs: 49 stops suppress the search
rate, 50 report it; 4 searches suppress the hit rate, 5 report it. -/
theorem search_rate_suppression_boundaries_check :
    (search_stats_of df49).search_rate = none ∧
    (search_stats_of df50).search_rate.isSome = true ∧
    (search_stats_of dfHit4).hit_rate = none ∧
    (search_stats_of dfHit5).hit_rate.isSome = true := by
  have h49 := search_rate_suppression_boundaries df49 _ (compute_search_stats_eq df49)
  have h50 := search_rate_suppression_boundaries df50 _ (compute_search_stats_eq df50)
  have h4 := search_rate_suppression_boundaries dfHit4 _ (compute_search_stats_eq dfHit4)
  have h5 := search_rate_suppression_boundaries dfHit5 _ (compute_search_stats_eq dfHit5)
  refine ⟨h49.1.mpr (by decide), ?_, h4.2.2.1.mpr (by decide), ?_⟩
  · rw [h50.2.1 (by decide)]
    rfl
  · rw [h5.2.2.2 (by decide)]
    rfl

/-- Claim C2 is corrected by this counterexample: `compute_outcome_stats` does
not return an undefined/NaN value on a zero denominator — the unguarded Python
division raises an uncaught `ZeroDivisionError` (modelled as `none`), both on
the empty input (zero total) and on a nonempty input with zero warnings. -/
theorem outcome_divzero_crash_example :
    compute_outcome_stats [] = none ∧
    compute_outcome_stats [rFound] = none := by
  exact ⟨rfl, rfl⟩

/-- Claim C2 (amended): `compute_outcome_stats` raises a division-by-zero
error (returns no value) exactly when the warning count is zero — which
includes every empty input — instead of returning an undefined value. -/
theorem outcome_divzero_iff_no_warnings (df : List StopRecord) :
    compute_outcome_stats df = none ↔
      (df.filter (fun r => r.stop_outcome == "Written Warning")).length = 0 :=
  compute_outcome_stats_none_iff df

/-- Claim C9: the two aggregators are deterministic pure functions of the
input sequence — equal inputs give equal results (and the embedding is
functional, so evaluation cannot mutate the input dataset). -/
theorem aggregators_deterministic (df₁ df₂ : List StopRecord) (h : df₁ = df₂) :
    compute_outcome_stats df₁ = compute_outcome_stats df₂ ∧
    compute_search_stats df₁ = compute_search_stats df₂ := by
  subst h
  exact ⟨rfl, rfl⟩

/-- Witness for claim C9 at a concrete dataset. -/
theorem aggregators_deterministic_check :
    compute_outcome_stats dfOut = compute_outcome_stats dfOut ∧
    compute_search_stats dfOut = compute_search_stats dfOut :=
  aggregators_deterministic dfOut dfOut rfl

/-- Claim C10: `compute_search_stats` never raises a division-by-zero error —
the suppression thresholds double as division guards (division happens only
when `n_stops ≥ 50 > 0`, resp. `n_searches ≥ 5 > 0`) — and the raw counts are
always returned unsuppressed, even when the rates are suppressed. -/
theorem search_stats_never_divzero (df : List StopRecord) :
    ∃ s, compute_search_stats df = some s ∧
      s.n_stops = df.length ∧
      s.n_searches = (df.filter (fun r => r.search_conducted)).length ∧
      s.n_hits = (df.filter (fun r => r.contraband_found)).length :=
  ⟨search_stats_of df, compute_search_stats_eq df, rfl, rfl, rfl⟩

/-- Claim C3: on every input sequence whose records satisfy the data-model
invariant (contraband can only be found where a search was conducted), the
`SearchStats` returned by `compute_search_stats` satisfy
`n_hits ≤ n_searches ≤ n_stops`, with `n_stops` the sequence length,
`n_searches` the count of records with `search_conducted`, and `n_hits` the
count of records with `contraband_found`. -/
theorem search_counts_ordered (df : List StopRecord) (s : SearchStats)
    (hs : compute_search_stats df = some s)
    (hinv : ∀ r ∈ df, r.contraband_found = true → r.search_conducted = true) :
    s.n_stops = df.length ∧
    s.n_searches = (df.filter (fun r => r.search_conducted)).length ∧
    s.n_hits = (df.filter (fun r => r.contraband_found)).length ∧
    s.n_hits ≤ s.n_searches ∧ s.n_searches ≤ s.n_stops := by
  rw [compute_search_stats_eq df] at hs
  obtain rfl : search_stats_of df = s := by simpa using hs
  exact ⟨rfl, rfl, rfl, length_filter_mono df hinv, List.length_filter_le _ _⟩

/-- Witness for claim C3 on a 3-stop dataset with 2 searches and 1 hit. -/
theorem search_counts_ordered_check :
    (search_stats_of dfInv).n_hits ≤ (search_stats_of dfInv).n_searches ∧
    (search_stats_of dfInv).n_searches ≤ (search_stats_of dfInv).n_stops := by
  have h := search_counts_ordered dfInv _ (compute_search_stats_eq dfInv) (by decide)
  exact ⟨h.2.2.2.1, h.2.2.2.2⟩

/-- Claim C4: whenever `compute_outcome_stats` returns, `n_total` is the
sequence length and `n_warnings`, `n_citations`, `n_arrests` are exact
string-equality counts of `stop_outcome` against the respective category, so
`n_warnings + n_citations + n_arrests ≤ n_total` (other outcome categories
may exist). -/
theorem outcome_counts_exact_match (df : List StopRecord) (s : OutcomeStats)
    (h : compute_outcome_stats df = some s) :
    s.n_total = df.length ∧
    s.n_warnings = (df.filter (fun r => r.stop_outcome == "Written Warning")).length ∧
    s.n_citations = (df.filter (fun r => r.stop_outcome == "Citation")).length ∧
    s.n_arrests = (df.filter (fun r => r.stop_outcome == "Arrest for Violation")).length ∧
    s.n_warnings + s.n_citations + s.n_arrests ≤ s.n_total := by
  have hw : (df.filter (fun r => r.stop_outcome == "Written Warning")).length ≠ 0 := by
    intro h0
    rw [(compute_outcome_stats_none_iff df).mpr h0] at h
    exact Option.noConfusion h
  rw [compute_outcome_stats_some df hw] at h
  obtain rfl : outcome_stats_of df = s := by simpa using h
  exact ⟨rfl, rfl, rfl, rfl, outcome_filter_sum_le df⟩

/-- Witness for claim C4 on a 4-stop dataset with one warning, one citation,
one arrest, and one stop with a different outcome (strict inequality). -/
theorem outcome_counts_exact_match_check :
    (outcome_stats_of dfOut).n_total = 4 ∧
    (outcome_stats_of dfOut).n_warnings = 1 ∧
    (outcome_stats_of dfOut).n_citations = 1 ∧
    (outcome_stats_of dfOut).n_arrests = 1 ∧
    (outcome_stats_of dfOut).n_warnings + (outcome_stats_of dfOut).n_citations +
      (outcome_stats_of dfOut).n_arrests ≤ (outcome_stats_of dfOut).n_total := by
  have h := outcome_counts_exact_match dfOut _ (compute_outcome_stats_some dfOut (by decide))
  refine ⟨?_, ?_, ?_, ?_, h.2.2.2.2⟩
  · rw [h.1]
    decide
  · rw [h.2.1]
    decide
  · rw [h.2.2.1]
    decide
  · rw [h.2.2.2.1]
    decide

/-- Claim C5: every returned `arrest_rate` lies in `[0, 1]` and every returned
`citations_per_warning` is nonnegative; when the warning count is zero no
value is returned at all (the division is undefined there). -/
theorem outcome_rates_bounded :
    (∀ (df : List StopRecord) (s : OutcomeStats), compute_outcome_stats df = some s →
      0 ≤ s.arrest_rate ∧ s.arrest_rate ≤ 1 ∧ 0 ≤ s.citations_per_warning) ∧
    (∀ df : List StopRecord,
      (df.filter (fun r => r.stop_outcome == "Written Warning")).length = 0 →
      compute_outcome_stats df = none) := by
  constructor
  · intro df s h
    have hw : (df.filter (fun r => r.stop_outcome == "Written Warning")).length ≠ 0 := by
      intro h0
      rw [(compute_outcome_stats_none_iff df).mpr h0] at h
      exact Option.noConfusion h
    rw [compute_outcome_stats_some df hw] at h
    obtain rfl : outcome_stats_of df = s := by simpa using h
    refine ⟨?_, ?_, ?_⟩
    · simp only [outcome_stats_of]
      positivity
    · simp only [outcome_stats_of]
      apply div_le_one_of_le₀
      · exact_mod_cast List.length_filter_le _ df
      · positivity
    · simp only [outcome_stats_of]
      positivity
  · intro df h0
    exact (compute_outcome_stats_none_iff df).mpr h0

/-- Witness for claim C5: the bounds at a concrete dataset, and the undefined
case at a concrete all-citation dataset. -/
theorem outcome_rates_bounded_check :
    (0 ≤ (outcome_stats_of dfOut).arrest_rate ∧
      (outcome_stats_of dfOut).arrest_rate ≤ 1 ∧
      0 ≤ (outcome_stats_of dfOut).citations_per_warning) ∧
    compute_outcome_stats [rFound] = none := by
  constructor
  · exact outcome_rates_bounded.1 dfOut _ (compute_outcome_stats_some dfOut (by decide))
  · exact outcome_rates_bounded.2 [rFound] (by decide)

/-- Claim C6 is corrected by this counterexample: with `search_rate` as the
chosen statistic, a county whose baseline row has a reported search rate but a
suppressed hit rate is dropped from the aligned output (the source's `dropna`
removes a row when either statistic is missing), even though the chosen
statistic is present on both sides — so the aligned output is not exactly the
counties with the chosen statistic present on both sides. -/
theorem comparison_join_chosen_field_example :
    (sRateOnly.search_rate.isSome = true ∧ sAll.search_rate.isSome = true) ∧
    comparison_counties SearchStats.search_rate [(1, sRateOnly)] [(1, sAll)] = [] := by
  exact ⟨⟨rfl, rfl⟩, rfl⟩

/-- Claim C6 (amended): for the chosen statistic (`search_rate` or
`hit_rate`), the aligned comparison output contains exactly the sub-keys
(counties) that appear in both result tables with *both* statistics
non-missing — the `dropna` drops a row when either statistic is missing, and
the remaining counties are inner-joined (unmatched counties are dropped). -/
theorem comparison_join_complete_rows (field : SearchStats → Option ℚ)
    (hf : field = SearchStats.search_rate ∨ field = SearchStats.hit_rate)
    (base comp : List (Nat × SearchStats)) (c : Nat) :
    c ∈ comparison_counties field base comp ↔
      ((∃ s, (c, s) ∈ base ∧ row_complete s = true) ∧
       (∃ s, (c, s) ∈ comp ∧ row_complete s = true)) := by
  have hfs : ∀ s : SearchStats, row_complete s = true → (field s).isSome = true := by
    intro s hs
    rw [row_complete, Bool.and_eq_true] at hs
    rcases hf with rfl | rfl
    · exact hs.1
    · exact hs.2
  constructor
  · intro h
    rw [comparison_counties, List.mem_map] at h
    obtain ⟨q, hq, hqc⟩ := h
    rw [comparison_points, List.mem_filterMap] at hq
    obtain ⟨p, hp, hfp⟩ := hq
    have hpb := List.mem_filter.mp hp
    cases hlook : List.lookup p.1 (dropna_rows comp) with
    | none =>
      rw [hlook] at hfp
      simp at hfp
    | some sc =>
      rw [hlook] at hfp
      have hfp2 : (match field p.2, field sc with
          | some vb, some vc => some (p.1, vb, vc)
          | _, _ => none) = some q := hfp
      have hmem := lookup_mem hlook
      have hmc := List.mem_filter.mp hmem
      cases hb : field p.2 with
      | none =>
        rw [hb] at hfp2
        simp at hfp2
      | some vb =>
        cases hcs : field sc with
        | none =>
          rw [hb, hcs] at hfp2
          simp at hfp2
        | some vc =>
          rw [hb, hcs] at hfp2
          obtain rfl : (p.1, vb, vc) = q := by simpa using hfp2
          obtain rfl : p.1 = c := hqc
          exact ⟨⟨p.2, hpb.1, hpb.2⟩, ⟨sc, hmc.1, hmc.2⟩⟩
  · rintro ⟨⟨sb, hsb, hsbc⟩, ⟨sc, hsc, hscc⟩⟩
    have hsbd : (c, sb) ∈ dropna_rows base := List.mem_filter.mpr ⟨hsb, hsbc⟩
    have hscd : (c, sc) ∈ dropna_rows comp := List.mem_filter.mpr ⟨hsc, hscc⟩
    obtain ⟨u, hu, humem⟩ := lookup_some_of_mem hscd
    have huc : row_complete u = true := (List.mem_filter.mp humem).2
    obtain ⟨vb, hvb⟩ := Option.isSome_iff_exists.mp (hfs sb hsbc)
    obtain ⟨vu, hvu⟩ := Option.isSome_iff_exists.mp (hfs u huc)
    rw [comparison_counties, List.mem_map]
    refine ⟨(c, vb, vu), ?_, rfl⟩
    rw [comparison_points, List.mem_filterMap]
    refine ⟨(c, sb), hsbd, ?_⟩
    simp only [hu, hvb, hvu]

/-- Witness for claim C6 (amended) on baseline counties 1, 2, 3 and comparison
counties 2, 3, 4, all rows complete: county 2 is in the aligned output. -/
theorem comparison_join_complete_rows_check :
    2 ∈ comparison_counties SearchStats.search_rate tblBase tblComp := by
  refine (comparison_join_complete_rows SearchStats.search_rate (Or.inl rfl)
    tblBase tblComp 2).mpr ⟨⟨sAll, ?_, rfl⟩, ⟨sAll, ?_, rfl⟩⟩
  · exact List.mem_cons_of_mem _ (List.mem_cons_self _ _)
  · exact List.mem_cons_self _ _

/-- Claim C7: partitioning by any categorical key is exhaustive and
non-overlapping — every record lands in the partition of its own key value
and in no other discovered partition, and the partition sizes sum to the
dataset size. -/
theorem groupby_partition_exhaustive (key : StopRecord → String) (df : List StopRecord) :
    (group_sizes key df).sum = df.length ∧
    (∀ r ∈ df, key r ∈ group_keys key df ∧ r ∈ group_rows key df (key r) ∧
      ∀ v, r ∈ group_rows key df v → v = key r) := by
  constructor
  · have hpt : ∀ v, (group_rows key df v).length = (df.map key).count v := by
      intro v
      rw [group_rows, ← List.countP_eq_length_filter, show (df.map key).count v =
        List.countP (fun x => x == v) (df.map key) from rfl, List.countP_map]
      rfl
    rw [group_sizes, group_keys]
    simp only [hpt]
    rw [List.sum_map_count_dedup_eq_length, List.length_map]
  · intro r hr
    refine ⟨?_, ?_, ?_⟩
    · rw [group_keys, List.mem_dedup]
      exact List.mem_map_of_mem key hr
    · rw [group_rows, List.mem_filter]
      exact ⟨hr, by simp⟩
    · intro v hv
      rw [group_rows, List.mem_filter] at hv
      have hkv : key r = v := by simpa using hv.2
      exact hkv.symm

/-- Witness for claim C7: the race partition of a concrete 4-stop dataset has
sizes summing to 4, and a concrete record lies in its own race's partition. -/
theorem groupby_partition_exhaustive_check :
    (group_sizes race_key dfOut).sum = dfOut.length ∧
    rFound ∈ group_rows race_key dfOut (race_key rFound) := by
  have h := groupby_partition_exhaustive race_key dfOut
  exact ⟨h.1, (h.2 rFound (by decide)).2.1⟩

/-- Claim C8 is corrected by this counterexample: with a loader that fails
only on the WI file, the CT jurisdiction alone analyzes fine, yet the
straight-line multi-state run aborts at WI with the loader's error and
returns no comparison table for any jurisdiction — it does not continue past
the failure. -/
theorem batch_abort_example :
    (analyze_state_data failing_load ("CT")).isOk = true ∧
    run_all_states failing_load (["MA", "WI", "CT"]) = Except.error ("malformed file") := by
  exact ⟨rfl, rfl⟩

/-- Claim C8 (amended): a malformed input file is fatal for the whole batch,
not just its own jurisdiction — if the loader fails on any requested state,
the sequential multi-state run returns no result set at all. -/
theorem batch_abort_on_failure (load : String → Except String (List StopRecord))
    (s : String) (e : String) (states : List String)
    (hs : s ∈ states) (he : load s = Except.error e) :
    (run_all_states load states).isOk = false := by
  induction states with
  | nil => simp at hs
  | cons s0 rest ih =>
    rcases List.mem_cons.mp hs with heq | htail
    · have ha : analyze_state_data load s0 = Except.error e := by
        rw [analyze_state_data, ← heq, he]
        rfl
      rw [run_all_states, ha]
      rfl
    · rw [run_all_states]
      cases h0 : analyze_state_data load s0 with
      | error e0 => rfl
      | ok t =>
        have hr := ih htail
        cases h1 : run_all_states load rest with
        | error e1 => rfl
        | ok ts =>
          rw [h1] at hr
          exact absurd hr (by simp [Except.isOk, Except.toBool])

/-- Witness for claim C8 (amended) at the concrete failing loader. -/
theorem batch_abort_on_failure_check :
    (run_all_states failing_load (["MA", "WI", "CT"])).isOk = false :=
  batch_abort_on_failure failing_load ("WI") ("malformed file")
    (["MA", "WI", "CT"]) (by decide) rfl
